import Mathlib

/-!
Verification of the frame-acquisition pipeline in `playback.py`.

The program continuously ingests a live video stream: it probes the source
for its video tracks (`get_highest_res_stream_index`), builds a decoder
command (`build_ffmpeg_cmd`), supervises the decoder process and slices its
raw byte output into fixed-size frames (`frame_reader`), hands frames to a
bounded FIFO (`queue.Queue(maxsize=30)`), and drives a consume loop with a
one-time GPU-to-CPU fallback (`main`).

This file is a shallow embedding of that pipeline.  Pure computations are
translated into Lean functions; the stateful loops are modelled by explicit
step functions over small state types, driven by the events that can occur
at their decision points (read results, loop-exit reasons, exception sites).
-/

/-! ### Stream prober (playback.py lines 11-46) -/

/-- One entry of the JSON stream list returned by ffprobe, as consumed by
`get_highest_res_stream_index`: the fields `codec_type`, `width`, `height`
and `index` are read via `stream.get`.  A missing `width`/`height` defaults
to `0` in the source (`stream.get('width', 0)`), so it is modelled by the
value `0` here; `index` is always present in ffprobe output and is modelled
as a plain integer. -/
structure ProbedStream where
  codec_type : String
  width : Nat
  height : Nat
  index : Int
deriving DecidableEq

/-- The area `int(w) * int(h)` computed at line 30 of the source. -/
def streamArea (s : ProbedStream) : Nat := s.width * s.height

/-- The selection loop of `get_highest_res_stream_index` (lines 24-37):
state is `(best_idx, best_area, best_w, best_h)`, initialised to
`(None, 0, 0, 0)`; a stream is taken only if `codec_type == 'video'` and
its area is strictly greater than the best area so far. -/
def selectLoop : List ProbedStream → Option Int → Nat → Nat → Nat →
    Option Int × Nat × Nat × Nat
  | [], bi, ba, bw, bh => (bi, ba, bw, bh)
  | s :: rest, bi, ba, bw, bh =>
    if s.codec_type = "video" then
      if ba < streamArea s then
        selectLoop rest (some s.index) (streamArea s) s.width s.height
      else
        selectLoop rest bi ba bw bh
    else
      selectLoop rest bi ba bw bh

/-- `get_highest_res_stream_index` (lines 11-46).  The argument is the
outcome of running and parsing ffprobe: `none` models any exception on the
way (tool error at line 17, JSON parse error at line 19), caught at line 44;
`some streams` is the parsed `info.get('streams', [])` list.  On the
exception path, and when no video stream was selected (`best_idx is None`,
line 41), the function returns the default `(0, 640, 360)`. -/
def get_highest_res_stream_index (probe : Option (List ProbedStream)) :
    Int × Nat × Nat :=
  match probe with
  | none => (0, 640, 360)
  | some streams =>
    match selectLoop streams none 0 0 0 with
    | (some idx, _, w, h) => (idx, w, h)
    | (none, _, _, _) => (0, 640, 360)

/-! ### Decoder command construction (playback.py lines 57-92) -/

/-- Python truthiness used at lines 61-62 (`width if width else stream_w`):
an absent argument (`None`) and the integer `0` are both falsy, so the
probed dimension is used; a positive argument overrides it. -/
def pyOr : Option Nat → Nat → Nat
  | none, d => d
  | some 0, d => d
  | some (n + 1), _ => n + 1

/-- `build_ffmpeg_cmd` (lines 57-92), reduced to the data the claims are
about: it calls `get_highest_res_stream_index` once (line 59) and fixes the
stream index and output dimensions `(stream_idx, out_w, out_h)` that the
constructed argv embeds (lines 61-62, 69, 83, 89).  The literal argv list
is elided; only its descriptor content matters here. -/
def build_ffmpeg_cmd (probe : Option (List ProbedStream))
    (width height : Option Nat) : Int × Nat × Nat :=
  let r := get_highest_res_stream_index probe
  (r.1, pyOr width r.2.1, pyOr height r.2.2)

/-! ### Frame framer: the inner read loop of `frame_reader` (lines 117-129) -/

/-- One pass of the inner loop of `frame_reader` over the successive results
of `proc.stdout.read(frame_size)` (each a byte chunk, modelled as a list of
byte values).  Per the source: a chunk that is empty or shorter than
`frame_size` hits the `break` at line 122, ending the session; otherwise the
reshape at line 124 succeeds exactly when the chunk has `frame_size` bytes
(the target shape `(height, width, 3)` holds `frame_size` entries) and the
frame is put into the queue, while a reshape failure is caught and the loop
continues (lines 125-127).  Returns the frames enqueued and whether the loop
exited through the short-read `break` (as opposed to running out of the
given trace, i.e. still streaming).  `stop_event` is unset throughout the
modelled session. -/
def frame_reader_session (frameSize : Nat) : List (List Nat) →
    List (List Nat) × Bool
  | [] => ([], false)
  | raw :: rest =>
    if raw.length = 0 ∨ raw.length < frameSize then
      ([], true)
    else
      let p := frame_reader_session frameSize rest
      if raw.length = frameSize then (raw :: p.1, p.2) else p

/-! ### Process supervisor: one iteration of `frame_reader`'s outer loop
(lines 112-134) -/

/-- How one iteration of the outer `while not stop_event.is_set()` loop of
`frame_reader` can go, classified by where control leaves the `try` body:
* `launchRaise` — `subprocess.Popen` at line 114 raises; the handler at
  line 132 catches it and the loop continues (no process exists);
* `shortRead reads` — the inner loop breaks at line 122 after the given
  reads; control reaches `proc.kill()` at line 130;
* `stopObserved reads` — `stop_event` becomes set and the inner loop exits
  at its head (line 117) after the given reads; control reaches
  `proc.kill()` at line 130;
* `midStreamRaise reads` — after a successful launch, an exception escapes
  the inner loop (e.g. `proc.stdout.read` raising at line 118) after the
  given reads were processed; the handler at line 132 catches it and the
  loop continues. -/
inductive IterOutcome
  | launchRaise
  | shortRead (reads : List (List Nat))
  | stopObserved (reads : List (List Nat))
  | midStreamRaise (reads : List (List Nat))

/-- Observable effect of one outer-loop iteration of `frame_reader`:
whether a decode process was spawned, whether it was killed before the
iteration ended, and the frames enqueued during the iteration. -/
structure IterEffect where
  spawned : Bool
  killed : Bool
  frames : List (List Nat)
deriving DecidableEq

/-- One iteration of `frame_reader`'s outer loop (lines 112-134).
`proc.kill()` at line 130 runs exactly when the inner loop exits normally
(short-read `break` or head check on `stop_event`); when an exception
propagates out of the inner loop the handler at line 132 only logs and
sleeps, so the process is not killed on that path. -/
def frame_reader_iter (frameSize : Nat) : IterOutcome → IterEffect
  | IterOutcome.launchRaise => ⟨false, false, []⟩
  | IterOutcome.shortRead reads =>
    ⟨true, true, (frame_reader_session frameSize reads).1⟩
  | IterOutcome.stopObserved reads =>
    ⟨true, true, (frame_reader_session frameSize reads).1⟩
  | IterOutcome.midStreamRaise reads =>
    ⟨true, false, (frame_reader_session frameSize reads).1⟩

/-! ### Frame buffer: `queue.Queue(maxsize=30)` (lines 128, 148, 164) -/

/-- The bounded FIFO created at line 148 (`queue.Queue(maxsize=30)`):
a capacity and the queued items, oldest first. -/
structure FrameQueue (α : Type) where
  maxsize : Nat
  items : List α
deriving DecidableEq

namespace FrameQueue

/-- `Queue.put(item)` with no timeout: the CPython implementation waits
while `0 < maxsize and qsize() >= maxsize`.  `none` models the call
blocking (it does not return); `some` is the queue after the item is
appended at the tail. -/
def put {α : Type} (q : FrameQueue α) (a : α) : Option (FrameQueue α) :=
  if 0 < q.maxsize ∧ q.maxsize ≤ q.items.length then
    none
  else
    some ⟨q.maxsize, q.items ++ [a]⟩

/-- `Queue.get(timeout=5)` as called at line 164: `none` models the
`queue.Empty` timeout outcome on an empty queue; otherwise the head item is
removed and returned. -/
def get {α : Type} (q : FrameQueue α) : Option (α × FrameQueue α) :=
  match q.items with
  | [] => none
  | a :: rest => some (a, ⟨q.maxsize, rest⟩)

end FrameQueue

/-- The producer's enqueue at line 128 (`frame_queue.put(frame)`), placed in
a context where `stop_event.is_set()` currently has the value `stopSet`:
the source passes no timeout and consults no flag, so the call is exactly
`FrameQueue.put`, whatever the shutdown signal says. -/
def readerPut {α : Type} (stopSet : Bool) (q : FrameQueue α) (a : α) :
    Option (FrameQueue α) :=
  FrameQueue.put q a

/-- A sequence of `put` calls, stopping (blocked) at the first one that
does not return. -/
def putAll {α : Type} : FrameQueue α → List α → Option (FrameQueue α)
  | q, [] => some q
  | q, a :: rest =>
    match FrameQueue.put q a with
    | some q2 => putAll q2 rest
    | none => none

/-- Successive `get` calls (at most `n` of them), collecting the returned
items in order until the queue is empty. -/
def drainFuel {α : Type} : Nat → FrameQueue α → List α
  | 0, _ => []
  | n + 1, q =>
    match FrameQueue.get q with
    | none => []
    | some (a, q2) => a :: drainFuel n q2

/-! ### Acquisition controller: the `while True` loop of `main`
(lines 145-197) -/

/-- The accelerator mode: `hardware` is `use_gpu = True`. -/
inductive AccelMode
  | hardware
  | software
deriving DecidableEq

/-- Why the consume loop (lines 161-184) stops running:
* `quit` — `cv2.waitKey` returned the quit key, so line 179 sets
  `stop_event` and line 180 breaks the inner `while`;
* `interrupt` — a `KeyboardInterrupt` reached the handler at line 181,
  which sets `stop_event` at line 183 and executes `break` at line 184.
Timeouts of `frame_queue.get` and delivered frames keep the loop running
and are not exit events. -/
inductive ExitReason
  | quit
  | interrupt
deriving DecidableEq

/-- State of `main`'s driver loop: `mode` is `use_gpu`, `triedFallback` is
`tried_gpu`, `stopSet` is `stop_event.is_set()`. -/
structure CtrlState where
  mode : AccelMode
  triedFallback : Bool
  stopSet : Bool
deriving DecidableEq

/-- One iteration of `main`'s `while True` loop (lines 151-197), driven by
how the consume loop exits.  Both exit paths set `stop_event` (line 179 or
183) and then run the `finally` block (lines 185-189: set `stop_event`,
join the reader thread, destroy the preview window).  After the `finally`:
* on `interrupt`, the `break` at line 184 leaves the `while True` loop,
  so the fallback check at line 191 is never reached;
* on `quit`, control reaches line 191: if `use_gpu and not tried_gpu`, the
  fallback runs (lines 192-196: `use_gpu = False`, `tried_gpu = True`,
  `stop_event.clear()`, `continue`); otherwise the `break` at line 197
  ends the loop.
Returns the state after the iteration, whether the `while True` loop
continues, and the successive values taken by `stop_event` at the mutation
points of the iteration (the two sets, then the clear if the fallback ran). -/
def main_loop_step (s : CtrlState) (r : ExitReason) :
    CtrlState × Bool × List Bool :=
  let s1 : CtrlState := { s with stopSet := true }
  let s2 : CtrlState := { s1 with stopSet := true }
  match r with
  | ExitReason.interrupt => (s2, false, [s1.stopSet, s2.stopSet])
  | ExitReason.quit =>
    if s2.mode = AccelMode.hardware ∧ s2.triedFallback = false then
      (⟨AccelMode.software, true, false⟩, true, [s1.stopSet, s2.stopSet, false])
    else
      (s2, false, [s1.stopSet, s2.stopSet])

/-- The full `while True` loop of `main`, fed the exit reason of each
successive consume loop.  Returns the final state and the concatenated
trace of `stop_event` values observed at its mutation points. -/
def main_loop_run : CtrlState → List ExitReason → CtrlState × List Bool
  | s, [] => (s, [])
  | s, r :: rs =>
    let st := main_loop_step s r
    if st.2.1 then
      let rest := main_loop_run st.1 rs
      (rest.1, st.2.2 ++ rest.2)
    else
      (st.1, st.2.2)

/-- The teardown actions performed between the consume loop's exit and the
end of the iteration, for either exit reason (lines 179/183 and 185-189):
whether `stop_event` was set in the exit handler, whether it was set in the
`finally` block, whether the reader thread was joined, and whether the
preview window was destroyed (line 188 guards it with `not args.no_preview`). -/
structure TeardownActions where
  stopSetOnExit : Bool
  stopSetInFinally : Bool
  joinedReader : Bool
  releasedWindows : Bool
deriving DecidableEq

/-- The teardown actually executed for each exit reason: the quit path runs
line 179 then the `finally` block; the interrupt path runs line 183 then
the same `finally` block. -/
def consume_exit_teardown (noPreview : Bool) : ExitReason → TeardownActions
  | ExitReason.quit => ⟨true, true, true, !noPreview⟩
  | ExitReason.interrupt => ⟨true, true, true, !noPreview⟩

/-! ### Descriptor resolution across the run (claim C8) -/

/-- Descriptors used by each decode session of a run, given an oracle for
the successive ffprobe invocations (`oracle k` is the parsed outcome of the
k-th probe).  `main` calls `build_ffmpeg_cmd` once per `while True`
iteration (line 153), which performs exactly one probe (line 59); the
`ns` list gives, for each controller iteration, how many decode sessions
`frame_reader` runs in that iteration.  `frame_reader` relaunches with the
same `cmd`, `width`, `height` parameters on every reconnect (lines 111-115),
so every session of one controller iteration carries the descriptor
resolved at that iteration's entry. -/
def runDescriptors (oracle : Nat → Option (List ProbedStream))
    (wArg hArg : Option Nat) : Nat → List Nat → List (List (Int × Nat × Nat))
  | _, [] => []
  | k, n :: rest =>
    List.replicate n (build_ffmpeg_cmd (oracle k) wArg hArg) ::
      runDescriptors oracle wArg hArg (k + 1) rest

/-- A probe oracle whose source changes between invocations: the first
probe reports one 640x360 video stream, every later probe reports one
1280x720 video stream. -/
def c8Oracle : Nat → Option (List ProbedStream)
  | 0 => some [⟨"video", 640, 360, 0⟩]
  | Nat.succ _ => some [⟨"video", 1280, 720, 0⟩]

/-! ### Helper lemmas -/

/-- If no video stream in the remaining list beats the accumulated best
area, the selection loop leaves its state unchanged. -/
theorem selectLoop_skip (l : List ProbedStream) (bi : Option Int)
    (ba bw bh : Nat)
    (h : ∀ t ∈ l, t.codec_type = "video" → streamArea t ≤ ba) :
    selectLoop l bi ba bw bh = (bi, ba, bw, bh) := by
  induction l with
  | nil => rfl
  | cons s rest ih =>
    have htail : ∀ t ∈ rest, t.codec_type = "video" → streamArea t ≤ ba :=
      fun t ht hv => h t (List.mem_cons_of_mem s ht) hv
    by_cases hv : s.codec_type = "video"
    · have hle := h s (List.mem_cons_self s rest) hv
      simp only [selectLoop, if_pos hv, if_neg (by omega : ¬ ba < streamArea s)]
      exact ih htail
    · simp only [selectLoop, if_neg hv]
      exact ih htail

/-- The selection loop picks the earliest video stream whose area strictly
exceeds the accumulated best and dominates everything after it. -/
theorem selectLoop_found (s : ProbedStream) (post : List ProbedStream)
    (hv : s.codec_type = "video")
    (hpost : ∀ t ∈ post, t.codec_type = "video" → streamArea t ≤ streamArea s) :
    ∀ pre : List ProbedStream,
      (∀ t ∈ pre, t.codec_type = "video" → streamArea t < streamArea s) →
      ∀ (bi : Option Int) (ba bw bh : Nat), ba < streamArea s →
        selectLoop (pre ++ s :: post) bi ba bw bh =
          (some s.index, streamArea s, s.width, s.height) := by
  intro pre
  induction pre with
  | nil =>
    intro _ bi ba bw bh hgt
    simp only [List.nil_append, selectLoop, if_pos hv, if_pos hgt]
    exact selectLoop_skip post _ _ _ _ hpost
  | cons t pre ih =>
    intro hpre bi ba bw bh hgt
    have htail : ∀ u ∈ pre, u.codec_type = "video" → streamArea u < streamArea s :=
      fun u hu hvu => hpre u (List.mem_cons_of_mem t hu) hvu
    by_cases hvt : t.codec_type = "video"
    · have hlt := hpre t (List.mem_cons_self t pre) hvt
      by_cases hbt : ba < streamArea t
      · simp only [List.cons_append, selectLoop, if_pos hvt, if_pos hbt]
        exact ih htail _ _ _ _ hlt
      · simp only [List.cons_append, selectLoop, if_pos hvt, if_neg hbt]
        exact ih htail _ _ _ _ hgt
    · simp only [List.cons_append, selectLoop, if_neg hvt]
      exact ih htail _ _ _ _ hgt

/-- Every frame put into the queue by the framer's inner loop has exactly
`frameSize` bytes. -/
theorem frame_reader_session_sizes (frameSize : Nat) :
    ∀ (reads : List (List Nat)) (f : List Nat),
      f ∈ (frame_reader_session frameSize reads).1 → f.length = frameSize := by
  intro reads
  induction reads with
  | nil => intro f hf; exact absurd hf (List.not_mem_nil f)
  | cons raw rest ih =>
    intro f hf
    by_cases hshort : raw.length = 0 ∨ raw.length < frameSize
    · simp only [frame_reader_session, if_pos hshort] at hf
      exact absurd hf (List.not_mem_nil f)
    · by_cases hfull : raw.length = frameSize
      · simp only [frame_reader_session, if_neg hshort, if_pos hfull] at hf
        rcases List.mem_cons.mp hf with heq | hmem
        · rw [heq]; exact hfull
        · exact ih f hmem
      · simp only [frame_reader_session, if_neg hshort, if_neg hfull] at hf
        exact ih f hf

/-- A short (or empty) read ends the session: the frames enqueued are
exactly the full-size chunks read before it, and the loop exits through
the break. -/
theorem frame_reader_session_short (frameSize : Nat) (hpos : 0 < frameSize) :
    ∀ (pre : List (List Nat)) (c : List Nat) (post : List (List Nat)),
      (∀ p ∈ pre, p.length = frameSize) → c.length < frameSize →
      frame_reader_session frameSize (pre ++ c :: post) = (pre, true) := by
  intro pre
  induction pre with
  | nil =>
    intro c post _ hc
    simp only [List.nil_append, frame_reader_session, if_pos (Or.inr hc)]
  | cons p pre ih =>
    intro c post hpre hc
    have hp := hpre p (List.mem_cons_self p pre)
    have hnshort : ¬ (p.length = 0 ∨ p.length < frameSize) := by omega
    have htail : ∀ u ∈ pre, u.length = frameSize :=
      fun u hu => hpre u (List.mem_cons_of_mem p hu)
    simp only [List.cons_append, frame_reader_session, if_neg hnshort, if_pos hp]
    simp [ih c post htail hc]

/-- Puts that fit within the capacity all succeed and append in order. -/
theorem putAll_ok {α : Type} :
    ∀ (l : List α) (m : Nat) (init : List α),
      init.length + l.length ≤ m →
      putAll ⟨m, init⟩ l = some ⟨m, init ++ l⟩ := by
  intro l
  induction l with
  | nil => intro m init h; simp [putAll]
  | cons a rest ih =>
    intro m init h
    have hl : init.length + (rest.length + 1) ≤ m := by
      simpa [List.length_cons] using h
    have hcond : ¬ (0 < m ∧ m ≤ init.length) := by omega
    simp only [putAll, FrameQueue.put, if_neg hcond]
    rw [ih m (init ++ [a]) (by simp [List.length_append]; omega)]
    simp

/-- Draining a queue with enough fuel returns its items, oldest first. -/
theorem drainFuel_eq {α : Type} :
    ∀ (l : List α) (m n : Nat), l.length ≤ n → drainFuel n ⟨m, l⟩ = l := by
  intro l
  induction l with
  | nil =>
    intro m n _
    cases n with
    | zero => rfl
    | succ n => rfl
  | cons a rest ih =>
    intro m n h
    cases n with
    | zero => simp at h
    | succ n =>
      simp only [drainFuel, FrameQueue.get]
      rw [ih m n (by simp at h; omega)]

/-! ### Claim C9 -/

/-- C9: for every URL, when probing fails (tool error or parse error,
modelled by the `none` argument) or no video track is found, the probe
operation returns the default descriptor `(streamIndex = 0, width = 640,
height = 360)` instead of raising; as a total Lean function it never aborts
or blocks acquisition. -/
theorem c9_theorem :
    get_highest_res_stream_index none = (0, 640, 360)
    ∧ (∀ streams : List ProbedStream,
        (∀ t ∈ streams, ¬ t.codec_type = "video") →
        get_highest_res_stream_index (some streams) = (0, 640, 360)) := by
  refine ⟨rfl, ?_⟩
  intro streams h
  have hsel := selectLoop_skip streams none 0 0 0
    (fun t ht hvt => absurd hvt (h t ht))
  simp [get_highest_res_stream_index, hsel]

/-- Witness for C9: a failed probe, and a probe listing a single non-video
track, both yield the default descriptor. -/
theorem c9_witness :
    get_highest_res_stream_index none = (0, 640, 360)
    ∧ get_highest_res_stream_index (some [⟨"audio", 1920, 1080, 1⟩]) =
        (0, 640, 360) :=
  ⟨c9_theorem.1,
   c9_theorem.2 [⟨"audio", 1920, 1080, 1⟩] (by
     intro t ht
     rw [List.mem_singleton] at ht
     subst ht
     decide)⟩

/-! ### Claim C10 -/

/-- C10: for every probe result listing video streams, the prober selects
the video stream whose `width * height` product is strictly largest,
preferring the earliest-listed stream on ties (the earliest video stream
whose area strictly exceeds every earlier video area and is not exceeded by
any later one); a zero-area video stream is never selected, so if every
video stream has zero area the prober returns the default `(0, 640, 360)`
as if no video track existed. -/
theorem c10_theorem :
    (∀ (pre : List ProbedStream) (s : ProbedStream) (post : List ProbedStream),
      s.codec_type = "video" → 0 < streamArea s →
      (∀ t ∈ pre, t.codec_type = "video" → streamArea t < streamArea s) →
      (∀ t ∈ post, t.codec_type = "video" → streamArea t ≤ streamArea s) →
      get_highest_res_stream_index (some (pre ++ s :: post)) =
        (s.index, s.width, s.height))
    ∧ (∀ streams : List ProbedStream,
      (∀ t ∈ streams, t.codec_type = "video" → streamArea t = 0) →
      get_highest_res_stream_index (some streams) = (0, 640, 360)) := by
  constructor
  · intro pre s post hv hpos hpre hpost
    have hsel := selectLoop_found s post hv hpost pre hpre none 0 0 0 hpos
    simp [get_highest_res_stream_index, hsel]
  · intro streams hz
    have hsel := selectLoop_skip streams none 0 0 0
      (fun t ht hvt => le_of_eq (hz t ht hvt))
    simp [get_highest_res_stream_index, hsel]

/-- Witness for C10: among a huge-area audio track, a smaller video track,
the largest video track, and a later video track tying the largest area,
the earliest largest video track is chosen; and a list whose only video
stream has zero area yields the default. -/
theorem c10_witness :
    get_highest_res_stream_index
        (some [⟨"audio", 4000, 4000, 0⟩, ⟨"video", 640, 360, 1⟩,
               ⟨"video", 1280, 720, 2⟩, ⟨"video", 1280, 720, 3⟩]) =
      (2, 1280, 720)
    ∧ get_highest_res_stream_index (some [⟨"video", 0, 0, 5⟩]) =
        (0, 640, 360) :=
  ⟨c10_theorem.1 [⟨"audio", 4000, 4000, 0⟩, ⟨"video", 640, 360, 1⟩]
      ⟨"video", 1280, 720, 2⟩ [⟨"video", 1280, 720, 3⟩]
      rfl (by decide) (by decide) (by decide),
   c10_theorem.2 [⟨"video", 0, 0, 5⟩] (by decide)⟩

/-! ### Claim C2 -/

/-- C2: for all valid `(width, height)`, the Frame Framer emits a frame
only when it has read exactly `width * height * 3` bytes from the decode
process's output; any read returning zero bytes or fewer than
`width * height * 3` bytes yields no additional frame and ends the current
session (the break returns control to the supervisor's outer loop). -/
theorem c2_theorem :
    (∀ (w h : Nat) (reads : List (List Nat)),
      ∀ f ∈ (frame_reader_session (w * h * 3) reads).1, f.length = w * h * 3)
    ∧ (∀ (w h : Nat) (pre : List (List Nat)) (c : List Nat)
        (post : List (List Nat)),
      0 < w → 0 < h →
      (∀ p ∈ pre, p.length = w * h * 3) → c.length < w * h * 3 →
      frame_reader_session (w * h * 3) (pre ++ c :: post) = (pre, true)) := by
  constructor
  · intro w h reads f hf
    exact frame_reader_session_sizes (w * h * 3) reads f hf
  · intro w h pre c post hw hh hpre hc
    exact frame_reader_session_short (w * h * 3)
      (by positivity) pre c post hpre hc

/-- Witness for C2 at 1x1 frames (frame size 3): a full chunk followed by a
short chunk yields exactly the full chunk as a frame and ends the session,
and the emitted frame has exactly 3 bytes. -/
theorem c2_witness :
    ([7, 8, 9] : List Nat).length = 1 * 1 * 3
    ∧ frame_reader_session (1 * 1 * 3) ([[7, 8, 9]] ++ [1] :: []) =
        ([[7, 8, 9]], true) :=
  ⟨c2_theorem.1 1 1 [[7, 8, 9], [1]] [7, 8, 9] (by decide),
   c2_theorem.2 1 1 [[7, 8, 9]] [1] [] (by decide) (by decide) (by decide)
     (by decide)⟩

/-! ### Claim C6 -/

/-- C6: Frame Buffer FIFO — for any sequence of puts `f1..fn` with buffer
capacity at least `n`, all the puts succeed without blocking or discarding
anything, and successive gets return exactly `f1..fn` in that order: no
reordering, no duplication, no enqueued frame dropped. -/
theorem c6_theorem {α : Type} (m : Nat) (l : List α) (hcap : l.length ≤ m) :
    putAll ⟨m, []⟩ l = some ⟨m, l⟩ ∧ drainFuel l.length ⟨m, l⟩ = l := by
  constructor
  · have h := putAll_ok l m [] (by simpa using hcap)
    simpa using h
  · exact drainFuel_eq l m l.length (Nat.le_refl _)

/-- Witness for C6: three puts into the capacity-30 queue enqueue in order,
and three gets return them in the same order. -/
theorem c6_witness :
    putAll (⟨30, []⟩ : FrameQueue Nat) [1, 2, 3] = some ⟨30, [1, 2, 3]⟩
    ∧ drainFuel ([1, 2, 3] : List Nat).length ⟨30, [1, 2, 3]⟩ = [1, 2, 3] :=
  c6_theorem 30 [1, 2, 3] (by decide)

/-! ### Claim C5 -/

/-- C5 counterexample: the claim states that when the ShutdownSignal is set
a put on a full buffer returns immediately without enqueuing; but the
producer's put at line 128 takes no notice of the signal, so on the full
capacity-30 queue it blocks (does not return) even with shutdown signaled. -/
theorem c5_counterexample :
    ¬ ((readerPut true ⟨30, List.replicate 30 (0 : Nat)⟩ 0).isSome = true) := by
  decide

/-- C5 (amended): a put issued while the buffer holds its full capacity
blocks regardless of the ShutdownSignal — the producer's put call does not
consult the shutdown flag at all (it is exactly the queue's put) — and it
stays blocked until a get removes a frame, after which a put succeeds. -/
theorem c5_theorem :
    (∀ {α : Type} (stopSet : Bool) (q : FrameQueue α) (a : α),
      readerPut stopSet q a = FrameQueue.put q a)
    ∧ (∀ {α : Type} (stopSet : Bool) (q : FrameQueue α) (a : α),
      0 < q.maxsize → q.maxsize ≤ q.items.length → readerPut stopSet q a = none)
    ∧ (∀ {α : Type} (q : FrameQueue α) (a b : α) (q2 : FrameQueue α),
      q.items.length = q.maxsize → FrameQueue.get q = some (b, q2) →
      (FrameQueue.put q2 a).isSome = true) := by
  refine ⟨fun _ _ _ => rfl, ?_, ?_⟩
  · intro α stopSet q a h1 h2
    simp only [readerPut, FrameQueue.put, if_pos (And.intro h1 h2)]
  · intro α q a b q2 hlen hget
    obtain ⟨m, items⟩ := q
    cases items with
    | nil => simp [FrameQueue.get] at hget
    | cons x rest =>
      simp only [FrameQueue.get, Option.some.injEq, Prod.mk.injEq] at hget
      obtain ⟨-, hq2⟩ := hget
      subst hq2
      simp only [List.length_cons] at hlen
      simp only [FrameQueue.put, if_neg (by omega : ¬ (0 < m ∧ m ≤ rest.length))]
      rfl

/-- Witness for C5: on the full capacity-2 queue a put blocks even with
shutdown signaled, and after a get removes the head a put succeeds. -/
theorem c5_witness :
    readerPut true (⟨2, [5, 6]⟩ : FrameQueue Nat) 7 = none
    ∧ (FrameQueue.put (⟨2, [6]⟩ : FrameQueue Nat) 7).isSome = true :=
  ⟨c5_theorem.2.1 true ⟨2, [5, 6]⟩ 7 (by decide) (by decide),
   c5_theorem.2.2 ⟨2, [5, 6]⟩ 7 5 ⟨2, [6]⟩ (by decide) (by decide)⟩

/-! ### Claim C1 -/

/-- C1 counterexample: the claim states that whenever the consume loop
exits with `AccelMode = Hardware` and `triedHardwareFallback = false`, the
controller switches to Software and restarts; but when a
`KeyboardInterrupt` in that very state exits the consume loop, the `break`
at line 184 leaves the `while True` loop before the fallback check at line
191: the controller terminates still in Hardware mode, with no restart and
no mode change. -/
theorem c1_counterexample :
    ¬ ((main_loop_step ⟨AccelMode.hardware, false, false⟩
          ExitReason.interrupt).1.mode = AccelMode.software
       ∧ (main_loop_step ⟨AccelMode.hardware, false, false⟩
          ExitReason.interrupt).2.1 = true) := by
  decide

/-- C1 (amended): if the consume loop exits via the consumer's quit request
while `AccelMode = Hardware` and `triedHardwareFallback = false`, the
controller sets the mode to Software, sets the flag, clears the signal, and
restarts the pipeline; the loop continues only through that one fallback
transition (which sets the flag, so it can happen at most once); on any
teardown with the mode already Software or the flag already true the loop
terminates; and the mode never transitions Software to Hardware. -/
theorem c1_theorem :
    (∀ s : CtrlState, s.mode = AccelMode.hardware → s.triedFallback = false →
      main_loop_step s ExitReason.quit =
        (⟨AccelMode.software, true, false⟩, true, [true, true, false]))
    ∧ (∀ (s : CtrlState) (r : ExitReason),
      s.mode = AccelMode.software ∨ s.triedFallback = true →
      (main_loop_step s r).2.1 = false)
    ∧ (∀ (s : CtrlState) (r : ExitReason), s.mode = AccelMode.software →
      (main_loop_step s r).1.mode = AccelMode.software)
    ∧ (∀ (s : CtrlState) (r : ExitReason), (main_loop_step s r).2.1 = true →
      s.mode = AccelMode.hardware ∧ s.triedFallback = false
        ∧ r = ExitReason.quit
        ∧ (main_loop_step s r).1.triedFallback = true) := by
  refine ⟨?_, ?_, ?_, ?_⟩
  · intro s h1 h2
    obtain ⟨m, t, st⟩ := s
    revert h1 h2
    cases m <;> cases t <;> cases st <;> decide
  · intro s r h
    obtain ⟨m, t, st⟩ := s
    revert h
    cases m <;> cases t <;> cases st <;> cases r <;> decide
  · intro s r h
    obtain ⟨m, t, st⟩ := s
    revert h
    cases m <;> cases t <;> cases st <;> cases r <;> decide
  · intro s r h
    obtain ⟨m, t, st⟩ := s
    revert h
    cases m <;> cases t <;> cases st <;> cases r <;> decide

/-- Witness for C1: from the fresh Hardware state a quit-exit performs the
single fallback and restarts; from the post-fallback Software state the
next teardown terminates the loop. -/
theorem c1_witness :
    main_loop_step ⟨AccelMode.hardware, false, false⟩ ExitReason.quit =
      (⟨AccelMode.software, true, false⟩, true, [true, true, false])
    ∧ (main_loop_step ⟨AccelMode.software, true, false⟩
        ExitReason.quit).2.1 = false :=
  ⟨c1_theorem.1 ⟨AccelMode.hardware, false, false⟩ rfl rfl,
   c1_theorem.2.1 ⟨AccelMode.software, true, false⟩ ExitReason.quit
     (Or.inl rfl)⟩

/-! ### Claim C4 -/

/-- C4 counterexample: the claim states the ShutdownSignal is set at most
once and never cleared after being set; but in the run starting in Hardware
mode where the consumer quits twice, the observed signal values are
`[set, set, clear, set, set]` — it is set (position 1), cleared by the
fallback at line 195 (position 2), and set again (position 3). -/
theorem c4_counterexample :
    (main_loop_run ⟨AccelMode.hardware, false, false⟩
        [ExitReason.quit, ExitReason.quit]).2 = [true, true, false, true, true]
    ∧ (main_loop_run ⟨AccelMode.hardware, false, false⟩
        [ExitReason.quit, ExitReason.quit]).2.get? 1 = some true
    ∧ (main_loop_run ⟨AccelMode.hardware, false, false⟩
        [ExitReason.quit, ExitReason.quit]).2.get? 2 = some false := by
  decide

/-- C4 (amended): the ShutdownSignal is cleared at most once per run, and
only as part of the single hardware-to-software fallback: starting from
Hardware with the fallback untried, the signal trace of any run is one of
`[]`, `[set, set]`, `[set, set, clear]` or `[set, set, clear, set, set]`;
a step ends with the signal cleared only when it is the fallback step; and
once the fallback flag is set, a step's trace is `[set, set]` — the signal
is never cleared again after being set. -/
theorem c4_theorem :
    (∀ rs : List ExitReason,
      (main_loop_run ⟨AccelMode.hardware, false, false⟩ rs).2 = []
      ∨ (main_loop_run ⟨AccelMode.hardware, false, false⟩ rs).2 = [true, true]
      ∨ (main_loop_run ⟨AccelMode.hardware, false, false⟩ rs).2 =
          [true, true, false]
      ∨ (main_loop_run ⟨AccelMode.hardware, false, false⟩ rs).2 =
          [true, true, false, true, true])
    ∧ (∀ (s : CtrlState) (r : ExitReason),
      (main_loop_step s r).1.stopSet = false →
      s.mode = AccelMode.hardware ∧ s.triedFallback = false
        ∧ r = ExitReason.quit)
    ∧ (∀ (s : CtrlState) (r : ExitReason), s.triedFallback = true →
      (main_loop_step s r).2.2 = [true, true]) := by
  refine ⟨?_, ?_, ?_⟩
  · intro rs
    match rs with
    | [] => exact Or.inl rfl
    | ExitReason.interrupt :: rs2 => exact Or.inr (Or.inl rfl)
    | [ExitReason.quit] => exact Or.inr (Or.inr (Or.inl rfl))
    | ExitReason.quit :: ExitReason.quit :: rs3 =>
      exact Or.inr (Or.inr (Or.inr rfl))
    | ExitReason.quit :: ExitReason.interrupt :: rs3 =>
      exact Or.inr (Or.inr (Or.inr rfl))
  · intro s r h
    obtain ⟨m, t, st⟩ := s
    revert h
    cases m <;> cases t <;> cases st <;> cases r <;> decide
  · intro s r h
    obtain ⟨m, t, st⟩ := s
    revert h
    cases m <;> cases t <;> cases st <;> cases r <;> decide

/-- Witness for C4: the only step that ends with the signal cleared is a
quit-exit from the fresh Hardware state. -/
theorem c4_witness :
    (⟨AccelMode.hardware, false, false⟩ : CtrlState).mode = AccelMode.hardware
    ∧ (⟨AccelMode.hardware, false, false⟩ : CtrlState).triedFallback = false
    ∧ ExitReason.quit = ExitReason.quit :=
  c4_theorem.2.1 ⟨AccelMode.hardware, false, false⟩ ExitReason.quit rfl

/-! ### Claim C7 -/

/-- C7 counterexample: the claim states a `KeyboardInterrupt` reaches the
same subsequent controller behavior as a quit request, including the
fallback decision; but from the fresh Hardware state the quit-exit falls
back and restarts while the interrupt-exit terminates the loop, so the two
steps differ. -/
theorem c7_counterexample :
    ¬ (main_loop_step ⟨AccelMode.hardware, false, false⟩ ExitReason.interrupt
       = main_loop_step ⟨AccelMode.hardware, false, false⟩
          ExitReason.quit) := by
  decide

/-- C7 (amended): an external interrupt performs exactly the same teardown
as a consumer quit — setting the ShutdownSignal in the handler and in the
`finally` block, joining the supervisor thread, and releasing the preview
window — and leaves the same post-teardown state (the prior state with the
signal set); but the interrupt then terminates the controller loop
unconditionally, skipping the fallback decision that a quit-exit reaches in
the fresh Hardware state. -/
theorem c7_theorem :
    (∀ noPreview : Bool,
      consume_exit_teardown noPreview ExitReason.interrupt =
        consume_exit_teardown noPreview ExitReason.quit)
    ∧ (∀ s : CtrlState,
      (main_loop_step s ExitReason.interrupt).1 = { s with stopSet := true }
      ∧ (main_loop_step s ExitReason.interrupt).2.1 = false
      ∧ (main_loop_step s ExitReason.interrupt).2.2 = [true, true])
    ∧ (∀ s : CtrlState, s.mode = AccelMode.hardware → s.triedFallback = false →
      (main_loop_step s ExitReason.quit).2.1 = true) := by
  refine ⟨fun _ => rfl, fun s => ⟨rfl, rfl, rfl⟩, ?_⟩
  intro s h1 h2
  obtain ⟨m, t, st⟩ := s
  revert h1 h2
  cases m <;> cases t <;> cases st <;> decide

/-- Witness for C7: in the fresh Hardware state the quit-exit continues the
loop (reaching the fallback), which the interrupt-exit never does. -/
theorem c7_witness :
    (main_loop_step ⟨AccelMode.hardware, false, false⟩
      ExitReason.quit).2.1 = true :=
  c7_theorem.2.2 ⟨AccelMode.hardware, false, false⟩ rfl rfl

/-! ### Claim C3 -/

/-- C3 counterexample: the claim states the decode process handle is
force-killed on every exit path of the supervisor loop; but on the
iteration where an exception escapes the streaming loop after a successful
launch, a process was spawned and was not killed before the loop
continued. -/
theorem c3_counterexample :
    ¬ ((frame_reader_iter 3 (IterOutcome.midStreamRaise [])).spawned = true →
       (frame_reader_iter 3 (IterOutcome.midStreamRaise [])).killed = true) := by
  decide

/-- C3 (amended): on the normal session-end exit (short read / EOF) and on
the shutdown exit of the supervisor loop, the decode process is force-killed
before the loop continues; a failed launch spawns no process; but when an
error is raised during streaming after a successful launch, the catch-all
handler continues the loop without killing the spawned process, so the
no-leak guarantee does not extend to that path. -/
theorem c3_theorem :
    (∀ (fs : Nat) (reads : List (List Nat)),
      (frame_reader_iter fs (IterOutcome.shortRead reads)).spawned = true
      ∧ (frame_reader_iter fs (IterOutcome.shortRead reads)).killed = true)
    ∧ (∀ (fs : Nat) (reads : List (List Nat)),
      (frame_reader_iter fs (IterOutcome.stopObserved reads)).spawned = true
      ∧ (frame_reader_iter fs (IterOutcome.stopObserved reads)).killed = true)
    ∧ (∀ fs : Nat, (frame_reader_iter fs IterOutcome.launchRaise).spawned = false)
    ∧ (∀ (fs : Nat) (reads : List (List Nat)),
      (frame_reader_iter fs (IterOutcome.midStreamRaise reads)).spawned = true
      ∧ (frame_reader_iter fs (IterOutcome.midStreamRaise reads)).killed
          = false) :=
  ⟨fun _ _ => ⟨rfl, rfl⟩, fun _ _ => ⟨rfl, rfl⟩, fun _ => rfl,
   fun _ _ => ⟨rfl, rfl⟩⟩

/-! ### Claim C8 -/

/-- C8 counterexample: the claim states the StreamDescriptor is re-resolved
on every reconnect attempt, including each relaunch the supervisor performs
after a session ends; but with a probe oracle whose first answer is a
640x360 stream and whose second answer is a 1280x720 stream, a controller
iteration in which `frame_reader` runs two sessions uses the 640x360
descriptor for both — the second session reuses the cached descriptor
instead of the fresh probe result the claim requires. -/
theorem c8_counterexample :
    runDescriptors c8Oracle none none 0 [2] = [[(0, 640, 360), (0, 640, 360)]]
    ∧ build_ffmpeg_cmd (c8Oracle 1) none none = (0, 1280, 720)
    ∧ ((0, 640, 360) : Int × Nat × Nat) ≠ (0, 1280, 720) := by
  refine ⟨?_, ?_, by decide⟩ <;> decide

/-- C8 (amended): the StreamDescriptor is re-resolved via the Stream Prober
exactly once per entry of the Acquisition Controller loop (including the
re-entry after the accel-mode switch) — session `j` of controller iteration
`i` always carries the descriptor built from the `(k+i)`-th probe, for every
oracle — so it is never cached across controller iterations, while every
supervisor relaunch within one iteration reuses that iteration's descriptor;
with no CLI override the descriptor used is exactly the probed one. -/
theorem c8_theorem :
    (∀ (oracle : Nat → Option (List ProbedStream)) (wArg hArg : Option Nat)
      (k : Nat) (ns : List Nat) (sessionDescs : List (Int × Nat × Nat))
      (i : Nat) (d : Int × Nat × Nat),
      (runDescriptors oracle wArg hArg k ns).get? i = some sessionDescs →
      d ∈ sessionDescs → d = build_ffmpeg_cmd (oracle (k + i)) wArg hArg)
    ∧ (∀ probe : Option (List ProbedStream),
      build_ffmpeg_cmd probe none none = get_highest_res_stream_index probe) := by
  constructor
  · intro oracle wArg hArg k ns
    induction ns generalizing k with
    | nil =>
      intro sessionDescs i d hget
      simp [runDescriptors] at hget
    | cons n rest ih =>
      intro sessionDescs i d hget hd
      cases i with
      | zero =>
        simp only [runDescriptors, List.get?] at hget
        cases hget
        have := List.eq_of_mem_replicate hd
        simpa using this
      | succ i =>
        simp only [runDescriptors, List.get?] at hget
        have h := ih (k + 1) sessionDescs i d hget hd
        rw [(by omega : k + (i + 1) = k + 1 + i)]
        exact h
  · intro probe
    rfl

/-- Witness for C8: applying the amended theorem at the concrete oracle,
the first session list of the run uses the descriptor of probe 0. -/
theorem c8_witness :
    ((0 : Int), 640, 360) = build_ffmpeg_cmd (c8Oracle (0 + 0)) none none :=
  c8_theorem.1 c8Oracle none none 0 [2] [(0, 640, 360), (0, 640, 360)] 0
    (0, 640, 360) (by decide) (by decide)
